import Mathlib

/-!
Shallow embedding of the WHMCS to FreeAgent dashboard frontend
(the Dashboard and Logs components of `src/frontend/src/App.js` and the
Settings component). Each React component holds only local view state,
modelled here as a structure; each fetch handler or event handler is a
pure state-transition function that takes the outcome of its network
request as an explicit argument (`Except Unit` for a request that can
reject). JavaScript truthiness in `a || b` expressions is modelled
explicitly: an absent field is `none` and the empty string and `false`
are falsy.
-/

namespace WhmcsToFreeAgent

/-- JavaScript `a || b` for an optional string `a`: the fallback is taken
when the value is absent or the empty string (both falsy in JS). -/
def jsOrString : Option String → String → String
  | some s, d => if s = "" then d else s
  | none, d => d

/-- JavaScript `a || b` for an optional boolean `a`. -/
def jsOrBool : Option Bool → Bool → Bool
  | some b, d => if b then true else d
  | none, d => d

/-- Shape of a `GET /api/sync/status` response as consumed by the
Dashboard (fields other than `is_running` may be absent). -/
structure SyncStatus where
  last_sync : Option String
  last_sync_status : Option String
  next_sync : Option String
  is_running : Bool
  deriving DecidableEq

/-- One entry of a `GET /api/sync/logs` response. -/
structure SyncLogEntry where
  id : String
  sync_type : String
  status : String
  timestamp : String
  message : String
  invoices_processed : Nat
  invoices_created : Nat
  clients_created : Nat
  payments_synced : Nat
  errors : List String
  deriving DecidableEq

inductive AlertType
  | success
  | error
  deriving DecidableEq

/-- An alert banner as stored by `setAlert({ type, message })`. -/
structure Alert where
  type : AlertType
  message : String
  deriving DecidableEq

/-- Local state of the Dashboard component (`useState` hooks). -/
structure DashboardState where
  syncStatus : Option SyncStatus
  recentLogs : List SyncLogEntry
  syncing : Bool
  alert : Option Alert
  loading : Bool
  deriving DecidableEq

/-- Initial `useState` values of the Dashboard component. -/
def dashboardInit : DashboardState :=
  { syncStatus := none, recentLogs := [], syncing := false, alert := none, loading := true }

/-- `Promise.all` over two requests: the joint await rejects as soon as
either request rejects. -/
def promiseAll2 {α β : Type} : Except Unit α → Except Unit β → Except Unit (α × β)
  | Except.ok a, Except.ok b => Except.ok (a, b)
  | Except.error e, _ => Except.error e
  | Except.ok _, Except.error e => Except.error e

/-- The Dashboard fetch cycle `fetchData`: status and recent logs are
awaited jointly via `Promise.all`; on success both are stored and the
loading flag cleared; if the joint await rejects, only the loading flag
is cleared (previous data stays). -/
def fetchData (s : DashboardState) (statusRes : Except Unit SyncStatus)
    (logsRes : Except Unit (List SyncLogEntry)) : DashboardState :=
  match promiseAll2 statusRes logsRes with
  | Except.ok (st, lg) => { s with syncStatus := some st, recentLogs := lg, loading := false }
  | Except.error _ => { s with loading := false }

/-- Outcome of `POST /api/sync/manual` as observed by `handleManualSync`:
a resolved response carries `response.data.result.message` (possibly
absent), a rejected one carries `error.response?.data?.detail` (possibly
absent). -/
inductive ManualSyncResponse
  | resolved (message : Option String)
  | rejected (detail : Option String)
  deriving DecidableEq

/-- Result of one run of `handleManualSync`: the final component state,
plus whether the handler issued a `fetchData` refresh cycle. -/
structure ManualSyncRun where
  state : DashboardState
  fetchIssued : Bool
  deriving DecidableEq

def syncSuccessFallback : String := "Sync completed successfully!"

def syncErrorFallback : String := "Sync failed. Please check your settings and try again."

/-- `handleManualSync`: sets the syncing flag and clears the alert, posts
the trigger; when the POST resolves it shows the success banner and then
refreshes via `fetchData`; when the POST rejects it shows the error
banner and does not refresh; `finally` clears the syncing flag. -/
def handleManualSync (s : DashboardState) (resp : ManualSyncResponse)
    (statusRes : Except Unit SyncStatus) (logsRes : Except Unit (List SyncLogEntry)) :
    ManualSyncRun :=
  let s1 := { s with syncing := true, alert := none }
  match resp with
  | ManualSyncResponse.resolved msg =>
      let s2 := { s1 with alert := some ⟨AlertType.success, jsOrString msg syncSuccessFallback⟩ }
      let s3 := fetchData s2 statusRes logsRes
      ⟨{ s3 with syncing := false }, true⟩
  | ManualSyncResponse.rejected detail =>
      let s2 := { s1 with alert := some ⟨AlertType.error, jsOrString detail syncErrorFallback⟩ }
      ⟨{ s2 with syncing := false }, false⟩

/-- `syncStatus?.is_running`, with the `undefined` produced by a null
status being falsy. -/
def isRunningFlag : Option SyncStatus → Bool
  | some st => st.is_running
  | none => false

/-- `disabled={syncing || syncStatus?.is_running}` on the manual-sync
button of the Dashboard. -/
def manualSyncDisabled (s : DashboardState) : Bool :=
  s.syncing || isRunningFlag s.syncStatus

/-- Local state of the Logs component. -/
structure LogsState where
  logs : List SyncLogEntry
  loading : Bool
  deriving DecidableEq

/-- Initial `useState` values of the Logs component. -/
def logsInit : LogsState := { logs := [], loading := true }

/-- The `limit` query parameter of the Logs view request
`/sync/logs?limit=100`. -/
def logsLimit : Nat := 100

/-- `fetchLogs` of the Logs view: stores the response body verbatim; on a
rejected request only the loading flag is cleared. -/
def fetchLogs (s : LogsState) (resp : Except Unit (List SyncLogEntry)) : LogsState :=
  match resp with
  | Except.ok data => { logs := data, loading := false }
  | Except.error _ => { s with loading := false }

/-- What the log-list area renders: the empty-state card, or the entries
in list order. -/
inductive LogsRender
  | emptyState
  | entries (logs : List SyncLogEntry)
  deriving DecidableEq

/-- `logs.length === 0 ? <empty-state> : logs.map(...)` in the Logs view:
no re-ordering is applied to the stored list. -/
def renderLogs (s : LogsState) : LogsRender :=
  if s.logs.length = 0 then LogsRender.emptyState else LogsRender.entries s.logs

/-- The credentials form fields of the Settings component. -/
structure Credentials where
  whmcs_url : String
  whmcs_identifier : String
  whmcs_secret : String
  freeagent_client_id : String
  freeagent_client_secret : String
  deriving DecidableEq

/-- Body of a `GET /api/settings/credentials` response; every field may be
absent, and the server may in particular echo identifier or secret
values. -/
structure CredentialsPayload where
  whmcs_url : Option String
  whmcs_identifier : Option String
  whmcs_secret : Option String
  freeagent_client_id : Option String
  freeagent_client_secret : Option String
  is_connected : Option Bool
  deriving DecidableEq

/-- Local state of the Settings component. -/
structure SettingsState where
  credentials : Credentials
  loading : Bool
  saving : Bool
  connecting : Bool
  disconnecting : Bool
  isConnected : Bool
  alert : Option Alert
  deriving DecidableEq

/-- Initial `useState` values of the Settings component. -/
def settingsInit : SettingsState :=
  { credentials := ⟨"", "", "", "", ""⟩, loading := true, saving := false,
    connecting := false, disconnecting := false, isConnected := false, alert := none }

/-- `fetchCredentials`: when `response.data` is truthy the form is rebuilt
taking only `whmcs_url`, `freeagent_client_id` and `is_connected` from
the payload, with identifier and both secret fields set to the empty
string; a falsy body or a rejected request only clears the loading
flag. -/
def fetchCredentials (s : SettingsState) (resp : Except Unit (Option CredentialsPayload)) :
    SettingsState :=
  match resp with
  | Except.ok (some data) =>
      { s with
        credentials :=
          ⟨jsOrString data.whmcs_url "", "", "", jsOrString data.freeagent_client_id "", ""⟩,
        isConnected := jsOrBool data.is_connected false,
        loading := false }
  | Except.ok none => { s with loading := false }
  | Except.error _ => { s with loading := false }

/-- The `oauth` and `message` query parameters as read by the Settings
mount effect (`searchParams.get` returns null for an absent parameter). -/
structure OAuthParams where
  oauth : Option String
  message : Option String
  deriving DecidableEq

/-- Effect of the Settings mount on the banner and on the address bar:
`address = some u` records a `window.history.replaceState` rewrite of the
address to `u`; `address = none` means the address was left alone. -/
structure SettingsEffectResult where
  alert : Option Alert
  address : Option String
  deriving DecidableEq

def oauthSuccessMessage : String := "Successfully connected to FreeAgent!"

def oauthErrorFallback : String := "Failed to connect to FreeAgent"

/-- The OAuth-callback branch of the Settings `useEffect`: on
`oauth=success` show the fixed success banner and rewrite the address to
`/settings`; on `oauth=error` show the `message` parameter (or the
generic fallback when it is absent or empty) and rewrite the address;
otherwise do nothing. -/
def settingsOAuthEffect (params : OAuthParams) : SettingsEffectResult :=
  match params.oauth with
  | some "success" => ⟨some ⟨AlertType.success, oauthSuccessMessage⟩, some "/settings"⟩
  | some "error" =>
      ⟨some ⟨AlertType.error, jsOrString params.message oauthErrorFallback⟩, some "/settings"⟩
  | _ => ⟨none, none⟩

/-- `disabled={connecting || !credentials.freeagent_client_id}` on the
connect-to-FreeAgent button (`!s` on a string is true exactly when the
string is empty). -/
def connectDisabled (s : SettingsState) : Bool :=
  s.connecting || (s.credentials.freeagent_client_id == "")

/-- Helper: a `fetchData` cycle never touches the alert banner. -/
theorem fetchData_alert_eq (s : DashboardState) (statusRes : Except Unit SyncStatus)
    (logsRes : Except Unit (List SyncLogEntry)) :
    (fetchData s statusRes logsRes).alert = s.alert := by
  unfold fetchData
  cases statusRes <;> cases logsRes <;> rfl

/-- Claim C1 fails as stated: a manual-sync trigger whose POST rejects
issues no status/logs refresh cycle afterwards (the `fetchData` call sits
only in the success path of the handler). -/
theorem manualSync_failure_no_refresh_counterexample :
    (handleManualSync dashboardInit (ManualSyncResponse.rejected (some "Sync already running"))
        (Except.ok ⟨none, none, none, false⟩) (Except.ok [])).fetchIssued = false := rfl

/-- Claim C1 (amended): a manual-sync trigger refreshes status and recent
logs exactly when the POST resolves; a rejected trigger shows the error
banner and issues no refresh cycle. -/
theorem manualSync_refresh_iff_resolved (s : DashboardState) (resp : ManualSyncResponse)
    (statusRes : Except Unit SyncStatus) (logsRes : Except Unit (List SyncLogEntry)) :
    (handleManualSync s resp statusRes logsRes).fetchIssued =
      (match resp with
       | ManualSyncResponse.resolved _ => true
       | ManualSyncResponse.rejected _ => false) := by
  cases resp <;> rfl

/-- Claim C2 fails as stated: a manual-sync call that resolves with
`{ result: { message: "" } }` shows the generic fallback banner, not a
banner whose text is the (present but empty) message field. -/
theorem manualSync_emptyMessage_counterexample :
    (handleManualSync dashboardInit (ManualSyncResponse.resolved (some ""))
          (Except.ok ⟨none, none, none, false⟩) (Except.ok [])).state.alert
        = some ⟨AlertType.success, syncSuccessFallback⟩
    ∧ (handleManualSync dashboardInit (ManualSyncResponse.resolved (some ""))
          (Except.ok ⟨none, none, none, false⟩) (Except.ok [])).state.alert
        ≠ some ⟨AlertType.success, ""⟩ := by
  exact ⟨rfl, by decide⟩

/-- Claim C2 (amended): the success banner shows the resolved message and
the error banner the rejected detail verbatim whenever that field is a
nonempty string; the generic fallback text appears when the field is
absent or the empty string. -/
theorem manualSync_banner_text (s : DashboardState) (statusRes : Except Unit SyncStatus)
    (logsRes : Except Unit (List SyncLogEntry)) (m d : String) (hm : m ≠ "") (hd : d ≠ "") :
    ((handleManualSync s (ManualSyncResponse.resolved (some m)) statusRes logsRes).state.alert
        = some ⟨AlertType.success, m⟩)
    ∧ ((handleManualSync s (ManualSyncResponse.rejected (some d)) statusRes logsRes).state.alert
        = some ⟨AlertType.error, d⟩)
    ∧ ((handleManualSync s (ManualSyncResponse.resolved none) statusRes logsRes).state.alert
        = some ⟨AlertType.success, syncSuccessFallback⟩)
    ∧ ((handleManualSync s (ManualSyncResponse.rejected none) statusRes logsRes).state.alert
        = some ⟨AlertType.error, syncErrorFallback⟩) := by
  refine ⟨?_, ?_, ?_, ?_⟩ <;>
    cases statusRes <;> cases logsRes <;>
      simp [handleManualSync, fetchData, promiseAll2, jsOrString, hm, hd]

/-- Witness for the amended claim C2 at a concrete successful run. -/
theorem manualSync_banner_text_witness :
    (handleManualSync dashboardInit (ManualSyncResponse.resolved (some "All invoices synced"))
        (Except.ok ⟨none, none, none, false⟩) (Except.ok [])).state.alert
      = some ⟨AlertType.success, "All invoices synced"⟩ :=
  (manualSync_banner_text dashboardInit (Except.ok ⟨none, none, none, false⟩) (Except.ok [])
    "All invoices synced" "Backend unreachable" (by decide) (by decide)).1

/-- Claim C3: whatever `GET /settings/credentials` returns, after the load
both secret fields of the Settings form are blank; moreover, whenever a
payload is present, the secrets are blanked starting from any prior form
state. -/
theorem fetchCredentials_blanks_secrets :
    (∀ resp : Except Unit (Option CredentialsPayload),
      (fetchCredentials settingsInit resp).credentials.whmcs_secret = ""
      ∧ (fetchCredentials settingsInit resp).credentials.freeagent_client_secret = "")
    ∧ (∀ (s : SettingsState) (data : CredentialsPayload),
      (fetchCredentials s (Except.ok (some data))).credentials.whmcs_secret = ""
      ∧ (fetchCredentials s (Except.ok (some data))).credentials.freeagent_client_secret = "") := by
  constructor
  · intro resp
    cases resp with
    | ok o => cases o <;> exact ⟨rfl, rfl⟩
    | error e => exact ⟨rfl, rfl⟩
  · intro s data
    exact ⟨rfl, rfl⟩

/-- Claim C4: the Dashboard cycle awaits status and recent logs jointly,
and a cycle in which either request rejects leaves both the displayed
status and the displayed logs unchanged. -/
theorem fetchData_failure_keeps_data (s : DashboardState) (statusRes : Except Unit SyncStatus)
    (logsRes : Except Unit (List SyncLogEntry))
    (h : statusRes = Except.error () ∨ logsRes = Except.error ()) :
    (fetchData s statusRes logsRes).syncStatus = s.syncStatus
    ∧ (fetchData s statusRes logsRes).recentLogs = s.recentLogs := by
  rcases h with h | h
  · subst h; cases logsRes <;> exact ⟨rfl, rfl⟩
  · subst h; cases statusRes <;> exact ⟨rfl, rfl⟩

/-- Witness for claim C4: a cycle whose logs request rejects keeps the
initial dashboard data. -/
theorem fetchData_failure_keeps_data_witness :
    (fetchData dashboardInit (Except.ok ⟨none, none, none, true⟩) (Except.error ())).syncStatus
        = dashboardInit.syncStatus
    ∧ (fetchData dashboardInit (Except.ok ⟨none, none, none, true⟩) (Except.error ())).recentLogs
        = dashboardInit.recentLogs :=
  fetchData_failure_keeps_data dashboardInit (Except.ok ⟨none, none, none, true⟩)
    (Except.error ()) (Or.inr rfl)

/-- Claim C5: visiting `/settings?oauth=success` shows the success banner
and rewrites the address to exactly `/settings` with no query string; a
mount with the parameters gone shows no banner, so a refresh does not
replay it. -/
theorem settings_oauth_success_banner (msg : Option String) :
    (settingsOAuthEffect ⟨some "success", msg⟩).alert
        = some ⟨AlertType.success, oauthSuccessMessage⟩
    ∧ (settingsOAuthEffect ⟨some "success", msg⟩).address = some "/settings"
    ∧ (settingsOAuthEffect ⟨none, none⟩).alert = none :=
  ⟨rfl, rfl, rfl⟩

/-- Claim C6: visiting `/settings?oauth=error&message=M` shows an error
banner whose text contains M, and with the message parameter absent the
generic failure message is shown instead. -/
theorem settings_oauth_error_banner (M : String) :
    (∃ t pre suf, (settingsOAuthEffect ⟨some "error", some M⟩).alert
        = some ⟨AlertType.error, t⟩ ∧ pre ++ M ++ suf = t)
    ∧ (settingsOAuthEffect ⟨some "error", none⟩).alert
        = some ⟨AlertType.error, oauthErrorFallback⟩ := by
  constructor
  · by_cases hM : M = ""
    · subst hM
      exact ⟨oauthErrorFallback, "", oauthErrorFallback, rfl, by decide⟩
    · refine ⟨jsOrString (some M) oauthErrorFallback, "", "", rfl, ?_⟩
      simp [jsOrString, hM]
  · rfl

/-- Claim C7: whenever the fetched status has `is_running = true`, the
manual-sync button is disabled, whatever the local syncing flag holds. -/
theorem running_disables_manualSync (s : DashboardState) (st : SyncStatus)
    (h1 : s.syncStatus = some st) (h2 : st.is_running = true) :
    manualSyncDisabled s = true := by
  simp [manualSyncDisabled, isRunningFlag, h1, h2]

/-- Witness for claim C7: a running status disables the button even with
the local syncing flag false. -/
theorem running_disables_manualSync_witness :
    manualSyncDisabled
      { syncStatus := some ⟨none, none, none, true⟩, recentLogs := [], syncing := false,
        alert := none, loading := false } = true :=
  running_disables_manualSync _ ⟨none, none, none, true⟩ rfl rfl

/-- Claim C8: the Logs view stores and renders the fetched entries exactly
in the order the backend returned them, rendering the empty-state card
when the returned sequence is empty, and the request limit is 100. -/
theorem logs_render_order (s : LogsState) (L : List SyncLogEntry) :
    (renderLogs (fetchLogs s (Except.ok L))
      = if L.length = 0 then LogsRender.emptyState else LogsRender.entries L)
    ∧ logsLimit = 100 :=
  ⟨rfl, rfl⟩

/-- Claim C9: loading credentials resets `whmcs_identifier` to the empty
string for every response, and the loaded state depends only on the
`whmcs_url`, `freeagent_client_id` and `is_connected` fields of the
payload. -/
theorem fetchCredentials_drops_identifier (s : SettingsState) (p q : CredentialsPayload)
    (hurl : p.whmcs_url = q.whmcs_url)
    (hcid : p.freeagent_client_id = q.freeagent_client_id)
    (hconn : p.is_connected = q.is_connected) :
    (fetchCredentials s (Except.ok (some p))).credentials.whmcs_identifier = ""
    ∧ (∀ resp : Except Unit (Option CredentialsPayload),
        (fetchCredentials settingsInit resp).credentials.whmcs_identifier = "")
    ∧ fetchCredentials s (Except.ok (some p)) = fetchCredentials s (Except.ok (some q)) := by
  refine ⟨rfl, ?_, ?_⟩
  · intro resp
    cases resp with
    | ok o => cases o <;> rfl
    | error e => rfl
  · simp [fetchCredentials, hurl, hcid, hconn]

/-- Witness for claim C9: a payload echoing a non-empty identifier and
secrets loads exactly the same state as one without them, with the
identifier field blank. -/
theorem fetchCredentials_drops_identifier_witness :
    (fetchCredentials settingsInit
        (Except.ok (some ⟨some "https://example.com/whmcs", some "IDENT42", some "topsecret",
            some "client1", some "csecret", some true⟩))).credentials.whmcs_identifier = ""
    ∧ fetchCredentials settingsInit
        (Except.ok (some ⟨some "https://example.com/whmcs", some "IDENT42", some "topsecret",
            some "client1", some "csecret", some true⟩))
      = fetchCredentials settingsInit
        (Except.ok (some ⟨some "https://example.com/whmcs", none, none,
            some "client1", none, some true⟩)) := by
  have h := fetchCredentials_drops_identifier settingsInit
    ⟨some "https://example.com/whmcs", some "IDENT42", some "topsecret", some "client1",
      some "csecret", some true⟩
    ⟨some "https://example.com/whmcs", none, none, some "client1", none, some true⟩
    rfl rfl rfl
  exact ⟨h.1, h.2.2⟩

/-- Claim C10: the connect-to-FreeAgent button is disabled whenever the
client-id form field is empty, and also whenever a connect request is in
flight. -/
theorem emptyClientId_disables_connect (s : SettingsState)
    (h : s.credentials.freeagent_client_id = "" ∨ s.connecting = true) :
    connectDisabled s = true := by
  rcases h with h | h <;> simp [connectDisabled, h]

/-- Witness for claim C10: the initial Settings state has a blank client
id and a disabled connect button. -/
theorem emptyClientId_disables_connect_witness :
    connectDisabled settingsInit = true :=
  emptyClientId_disables_connect settingsInit (Or.inl rfl)

end WhmcsToFreeAgent
